import Mathlib

/-!
Verification development for the PaymentsRifas service (Go, two handler
variants: `main.go` and the unnamed variant `part_000`).  The embedding
models the two HTTP handlers (`CreatePaymentIntent`, `HandleStripeWebhook`)
and their support functions (`validarNumeros`, `registrarTickets`,
`toString`) as pure Lean functions.  External collaborators (the Supabase
store, the Stripe signature check) are modelled from the specification, as
noted on each such definition.
-/

namespace PaymentsRifas

/-- Decimal digit character, `48 + d` in code-point form; used by the JSON
encoding of an integer (what `json.Marshal` emits for an `int`). -/
def digitChar (d : Nat) : Char := Char.ofNat (48 + d)

/-- Digits of `n`, most significant first.  The first argument is fuel that
keeps the recursion structural; callers supply `n + 1`, which is enough. -/
def natDigitsAux : Nat → Nat → List Char
  | 0, _ => []
  | fuel + 1, n =>
    if n < 10 then [digitChar n] else natDigitsAux fuel (n / 10) ++ [digitChar (n % 10)]

/-- Decimal digits of a natural number, most significant first. -/
def natDigits (n : Nat) : List Char := natDigitsAux (n + 1) n

/-- Characters of the decimal encoding of an integer, exactly as
`json.Marshal` writes a Go `int`. -/
def intToChars : Int → List Char
  | Int.ofNat n => natDigits n
  | Int.negSucc n => '-' :: natDigits (n + 1)

/-- Comma-separated encoding of the elements of a JSON integer array. -/
def encodeElems : List Int → List Char
  | [] => []
  | i :: is =>
    match is with
    | [] => intToChars i
    | _ :: _ => intToChars i ++ ',' :: encodeElems is

/-- toString from the source: `json.Marshal` of the numbers slice, e.g.
`[4,9]`.  (For a non-nil Go slice; a nil slice would marshal to "null",
which the decoder below maps to a decode failure, and the webhook handler
then falls back to the empty list either way.) -/
def toString (numeros : List Int) : String :=
  String.mk ('[' :: (encodeElems numeros ++ [']']))

/-- Greedy decimal-digit reader: consumes leading digits, accumulating
their value, and returns the value with the unconsumed remainder. -/
def readDigits (acc : Nat) : List Char → Nat × List Char
  | [] => (acc, [])
  | c :: cs => if c.isDigit then readDigits (acc * 10 + (c.toNat - 48)) cs else (acc, c :: cs)

/-- Parse a natural number: requires at least one leading digit. -/
def parseNat : List Char → Option (Nat × List Char)
  | [] => none
  | c :: cs => if c.isDigit then some (readDigits 0 (c :: cs)) else none

/-- Parse an integer: an optional minus sign followed by digits. -/
def parseInt : List Char → Option (Int × List Char)
  | [] => none
  | c :: cs =>
    if c = '-' then (parseNat cs).map (fun p => (-(p.1 : Int), p.2))
    else (parseNat (c :: cs)).map (fun p => ((p.1 : Int), p.2))

/-- Parse one-or-more comma-separated integers terminated by a closing
bracket; the fuel bounds the recursion by the input length. -/
def parseElems : Nat → List Char → Option (List Int × List Char)
  | 0, _ => none
  | fuel + 1, cs =>
    match parseInt cs with
    | none => none
    | some (i, rest) =>
      match rest with
      | ',' :: rest2 => (parseElems fuel rest2).map (fun p => (i :: p.1, p.2))
      | ']' :: rest2 => some ([i], rest2)
      | _ => none

/-- Decoder of the "numeros" metadata field: `json.Unmarshal` of a string
into an int slice.  `none` models an unmarshal error, in which case the
webhook handler keeps the untouched (nil, hence empty) slice. -/
def decodeNumeros (s : String) : Option (List Int) :=
  match s.toList with
  | '[' :: cs =>
    if cs = [']'] then some []
    else
      match parseElems cs.length cs with
      | some (l, []) => some l
      | _ => none
  | _ => none

/-- Does the character list start with a non-digit (or end)? -/
def nonDigitStart : List Char → Bool
  | [] => true
  | c :: _ => !c.isDigit

/-- Ticket row of the tikect table: one number bound to one item and one
buyer, as built by registrarTickets. -/
structure Ticket where
  rifa_id : String
  number : Int
  profile_id : String
deriving DecidableEq

/-- The (item, number) pair protected by the store's uniqueness constraint. -/
def keyOf (t : Ticket) : String × Int := (t.rifa_id, t.number)

/-- Reachability of the external store during one call. -/
inductive StoreMode where
  | ok
  | down
  | fail500
deriving DecidableEq

/-- Does the store already hold a ticket with this (item, number) key? -/
def hasKey (store : List Ticket) (k : String × Int) : Bool :=
  store.any (fun t => decide (keyOf t = k))

/-- Modelled from the spec: the uniqueness-constraint check the store runs
on a batch insert — a batch violates when a row's (item, number) key is
already present, or when two rows of the batch share a key. -/
def batchViolates : List Ticket → List Ticket → Bool
  | _, [] => false
  | store, r :: rs => hasKey store (keyOf r) || batchViolates (r :: store) rs

/-- Modelled from the spec: the store's batch insert (the Supabase REST
POST on the tikect table, not part of src/) with the uniqueness constraint
on (rifa_id, number): a violating batch is rejected whole with status 409
and changes nothing; otherwise the rows are appended and 201 is returned.
`.down` is a transport failure (no HTTP response at all), `.fail500` a
store that answers 500 to everything. -/
def storeInsertBatch (mode : StoreMode) (store rows : List Ticket) : Option (Nat × List Ticket) :=
  match mode with
  | .down => none
  | .fail500 => some (500, store)
  | .ok => if batchViolates store rows then some (409, store) else some (201, store ++ rows)

/-- Rows of the insert payload: one row per requested number, in order. -/
def mkRows (rifaID : String) (numeros : List Int) (userID : String) : List Ticket :=
  numeros.map (fun n => { rifa_id := rifaID, number := n, profile_id := userID })

/-- Number of tickets in the store carrying a given (item, number) key. -/
def countKey (store : List Ticket) (k : String × Int) : Nat :=
  store.countP (fun t => decide (keyOf t = k))

/-- The core invariant the protocol protects: at most one ticket may ever
exist for a given (item, number) pair. -/
def atMostOnePerKey (store : List Ticket) : Prop :=
  ∀ k, countKey store k ≤ 1

/-- Sellable item row of the rifa table (id, price, title). -/
structure Rifa where
  id : String
  price : Int
  title : String
deriving DecidableEq

/-- Decoded request body of POST /payments/create-intent. -/
structure PaymentRequest where
  rifaId : String
  numeros : List Int
  userId : String
  email : String
deriving DecidableEq

/-- The stripe.PaymentIntentParams that a handler passes to
paymentintent.New: the amount and the metadata map. -/
structure IntentParams where
  amount : Int
  metadata : List (String × String)
deriving DecidableEq

/-- Observable outcome of one create-intent call: the HTTP status written
and the list of intent-creation calls made to the payment provider. -/
structure CreateResult where
  status : Nat
  intents : List IntentParams
deriving DecidableEq

/-- Content of a webhook body once parsed: the event type tag and the
metadata map of the embedded payment intent (the only fields the handlers
read). -/
structure Event where
  type : String
  metadata : List (String × String)
deriving DecidableEq

/-- Modelled from the spec: a Stripe-Signature header value, symbolically —
the secret it was computed with and the exact body it signed. -/
structure Sig where
  secret : String
  signedBody : Event
deriving DecidableEq

/-- Go map indexing `m[k]` on a string map: the zero value "" when absent. -/
def mapGet (m : List (String × String)) (k : String) : String :=
  (m.lookup k).getD ""

/-- Modelled from the spec: webhook.ConstructEvent (Stripe SDK, not part of
src/) — verification succeeds exactly when the signature was computed with
the same shared secret over the same raw body; only then is the typed event
handed to the caller. -/
def constructEvent (payload : Event) (sig : Sig) (secret : String) : Except String Event :=
  if sig.secret = secret ∧ sig.signedBody = payload then Except.ok payload
  else Except.error "signature verification failed"

/-- One call to enviarCorreoConfirmacion: its arguments and whether the
mail provider accepted it. -/
structure EmailAttempt where
  destinatario : String
  rifaNombre : String
  numeros : List Int
  delivered : Bool
deriving DecidableEq

/-- Observable outcome of one webhook delivery: the HTTP status written,
the resulting store, the insert payloads POSTed to the store, and the
notification attempts. -/
structure WebhookResult where
  status : Nat
  store : List Ticket
  attempts : List (List Ticket)
  emails : List EmailAttempt
deriving DecidableEq

namespace MainGo

/-- validarNumeros from main.go: queries the tikect table for rows with
this rifa_id and a number in the requested list; any row is a conflict. -/
def validarNumeros (store : List Ticket) (rifaID : String) (numeros : List Int) :
    Except String Unit :=
  if store.any (fun t => t.rifa_id == rifaID && numeros.contains t.number) then
    Except.error "algunos numeros ya no estan disponibles"
  else Except.ok ()

/-- registrarTickets from main.go: builds one row per number and POSTs the
batch; a transport error is returned as-is and any response status >= 400
becomes the blanket error "error registro". -/
def registrarTickets (mode : StoreMode) (store : List Ticket) (rifaID : String)
    (numeros : List Int) (userID : String) : List Ticket × Except String Unit :=
  match storeInsertBatch mode store (mkRows rifaID numeros userID) with
  | none => (store, Except.error "network error")
  | some (status, store') =>
    if status ≥ 400 then (store', Except.error "error registro") else (store', Except.ok ())

/-- CreatePaymentIntent from main.go.  `catalog` stands for the getRifa
lookup against the rifa table; `stripeOk` for whether paymentintent.New
answers; `body` is none when the request JSON fails to decode. -/
def CreatePaymentIntent (catalog : String → Option Rifa) (store : List Ticket)
    (stripeOk : Bool) (body : Option PaymentRequest) : CreateResult :=
  match body with
  | none => { status := 400, intents := [] }
  | some req =>
    match catalog req.rifaId with
    | none => { status := 404, intents := [] }
    | some rifa =>
      match validarNumeros store req.rifaId req.numeros with
      | Except.error _ => { status := 409, intents := [] }
      | Except.ok _ =>
        let montoTotal := rifa.price * (req.numeros.length : Int) * 100
        let params : IntentParams :=
          { amount := montoTotal
            metadata :=
              [("rifa_id", req.rifaId), ("rifa_title", rifa.title), ("user_id", req.userId),
                ("user_email", req.email), ("numeros", PaymentsRifas.toString req.numeros)] }
        if stripeOk then { status := 200, intents := [params] }
        else { status := 500, intents := [params] }

/-- HandleStripeWebhook from main.go.  `readOk` is false when reading the
size-capped body fails.  On a registrarTickets error the code logs and
returns without ever writing a header, so net/http answers 200. -/
def HandleStripeWebhook (endpointSecret : String) (mode : StoreMode) (store : List Ticket)
    (readOk : Bool) (body : Event) (sig : Sig) (emailOk : Bool) : WebhookResult :=
  if readOk = false then { status := 400, store := store, attempts := [], emails := [] }
  else
    match constructEvent body sig endpointSecret with
    | Except.error _ => { status := 400, store := store, attempts := [], emails := [] }
    | Except.ok event =>
      if event.type = "payment_intent.succeeded" then
        let rifaID := mapGet event.metadata "rifa_id"
        let rifaTitle := mapGet event.metadata "rifa_title"
        let userID := mapGet event.metadata "user_id"
        let userEmail := mapGet event.metadata "user_email"
        let numeros := (decodeNumeros (mapGet event.metadata "numeros")).getD []
        let payload := mkRows rifaID numeros userID
        match registrarTickets mode store rifaID numeros userID with
        | (store', Except.error _) =>
          { status := 200, store := store', attempts := [payload], emails := [] }
        | (store', Except.ok _) =>
          { status := 200, store := store', attempts := [payload],
            emails := [{ destinatario := userEmail, rifaNombre := rifaTitle,
                         numeros := numeros, delivered := emailOk }] }
      else { status := 200, store := store, attempts := [], emails := [] }

end MainGo

namespace Part000

/-- registrarTickets from the part_000 variant: identical store behaviour
to main.go's, but a response status >= 400 is reported as
"status <code>: <body>" (the modelled store sends an empty body). -/
def registrarTickets (mode : StoreMode) (store : List Ticket) (rifaID : String)
    (numeros : List Int) (userID : String) : List Ticket × Except String Unit :=
  match storeInsertBatch mode store (mkRows rifaID numeros userID) with
  | none => (store, Except.error "network error")
  | some (status, store') =>
    if status ≥ 400 then (store', Except.error ("status " ++ Nat.repr status ++ ": "))
    else (store', Except.ok ())

/-- CreatePaymentIntent from the part_000 variant: decodes the body, looks
the rifa up, and goes straight to the amount computation and the provider
call — this variant performs no validarNumeros availability check. -/
def CreatePaymentIntent (catalog : String → Option Rifa) (store : List Ticket)
    (stripeOk : Bool) (body : Option PaymentRequest) : CreateResult :=
  match body with
  | none => { status := 400, intents := [] }
  | some req =>
    match catalog req.rifaId with
    | none => { status := 404, intents := [] }
    | some rifa =>
      let montoTotal := rifa.price * (req.numeros.length : Int) * 100
      let params : IntentParams :=
        { amount := montoTotal
          metadata :=
            [("rifa_id", req.rifaId), ("rifa_title", rifa.title), ("user_id", req.userId),
              ("user_email", req.email), ("numeros", PaymentsRifas.toString req.numeros)] }
      if stripeOk then { status := 200, intents := [params] }
      else { status := 500, intents := [params] }

/-- HandleStripeWebhook from the part_000 variant: `piParseOk` is false
when unmarshalling event.Data.Raw into a PaymentIntent fails (this variant
checks that error and answers 400); a registrarTickets error is answered
with 500. -/
def HandleStripeWebhook (endpointSecret : String) (mode : StoreMode) (store : List Ticket)
    (readOk : Bool) (body : Event) (sig : Sig) (piParseOk : Bool) (emailOk : Bool) :
    WebhookResult :=
  if readOk = false then { status := 400, store := store, attempts := [], emails := [] }
  else
    match constructEvent body sig endpointSecret with
    | Except.error _ => { status := 400, store := store, attempts := [], emails := [] }
    | Except.ok event =>
      if event.type = "payment_intent.succeeded" then
        if piParseOk = false then { status := 400, store := store, attempts := [], emails := [] }
        else
          let rifaID := mapGet event.metadata "rifa_id"
          let rifaTitle := mapGet event.metadata "rifa_title"
          let userID := mapGet event.metadata "user_id"
          let userEmail := mapGet event.metadata "user_email"
          let numeros := (decodeNumeros (mapGet event.metadata "numeros")).getD []
          let payload := mkRows rifaID numeros userID
          match registrarTickets mode store rifaID numeros userID with
          | (store', Except.error _) =>
            { status := 500, store := store', attempts := [payload], emails := [] }
          | (store', Except.ok _) =>
            { status := 200, store := store', attempts := [payload],
              emails := [{ destinatario := userEmail, rifaNombre := rifaTitle,
                           numeros := numeros, delivered := emailOk }] }
      else { status := 200, store := store, attempts := [], emails := [] }

end Part000

lemma nonDigitStart_cons (c : Char) (rest : List Char) (h : c.isDigit = false) :
    nonDigitStart (c :: rest) = true := by
  simp [nonDigitStart, h]

lemma encodeElems_single (i : Int) : encodeElems [i] = intToChars i := rfl

lemma encodeElems_cons_cons (i j : Int) (tl : List Int) :
    encodeElems (i :: j :: tl) = intToChars i ++ ',' :: encodeElems (j :: tl) := rfl

lemma parseElems_succ (fuel : Nat) (cs : List Char) :
    parseElems (fuel + 1) cs
      = match parseInt cs with
        | none => none
        | some (i, rest) =>
          match rest with
          | ',' :: rest2 => (parseElems fuel rest2).map (fun p => (i :: p.1, p.2))
          | ']' :: rest2 => some ([i], rest2)
          | _ => none := rfl

lemma digitChar_isDigit (d : Nat) (h : d < 10) : (digitChar d).isDigit = true := by
  interval_cases d <;> decide

lemma digitChar_toNat (d : Nat) (h : d < 10) : (digitChar d).toNat = 48 + d := by
  interval_cases d <;> decide

lemma isDigit_ne_dash {c : Char} (h : c.isDigit = true) : ¬(c = '-') := by
  intro hc
  subst hc
  exact absurd h (by decide)

lemma readDigits_cons_digit (acc : Nat) (c : Char) (cs : List Char) (h : c.isDigit = true) :
    readDigits acc (c :: cs) = readDigits (acc * 10 + (c.toNat - 48)) cs := by
  simp [readDigits, h]

lemma readDigits_nonDigit (acc : Nat) (l : List Char) (h : nonDigitStart l = true) :
    readDigits acc l = (acc, l) := by
  cases l with
  | nil => simp [readDigits]
  | cons c cs =>
    simp only [nonDigitStart, Bool.not_eq_true'] at h
    simp [readDigits, h]

lemma readDigits_natDigitsAux (fuel : Nat) :
    ∀ n acc rest, n < fuel →
      readDigits acc (natDigitsAux fuel n ++ rest)
        = readDigits (acc * 10 ^ (natDigitsAux fuel n).length + n) rest := by
  induction fuel with
  | zero => intro n _ _ h; omega
  | succ f ih =>
    intro n acc rest h
    by_cases h10 : n < 10
    · simp only [natDigitsAux, if_pos h10, List.singleton_append, List.length_singleton, pow_one]
      rw [readDigits_cons_digit _ _ _ (digitChar_isDigit n h10), digitChar_toNat n h10]
      congr 1
      omega
    · have hdiv : n / 10 < f := by omega
      simp only [natDigitsAux, if_neg h10, List.append_assoc, List.singleton_append,
        List.length_append, List.length_singleton]
      rw [ih (n / 10) acc (digitChar (n % 10) :: rest) hdiv]
      rw [readDigits_cons_digit _ _ _ (digitChar_isDigit (n % 10) (by omega)),
        digitChar_toNat (n % 10) (by omega)]
      congr 1
      have hdm : n / 10 * 10 + n % 10 = n := Nat.div_add_mod' n 10
      have hpow : 10 ^ ((natDigitsAux f (n / 10)).length + 1)
          = 10 ^ (natDigitsAux f (n / 10)).length * 10 := pow_succ 10 _
      calc (acc * 10 ^ (natDigitsAux f (n / 10)).length + n / 10) * 10 + (48 + n % 10 - 48)
          = acc * (10 ^ (natDigitsAux f (n / 10)).length * 10) + (n / 10 * 10 + n % 10) := by
            ring_nf
            omega
        _ = acc * 10 ^ ((natDigitsAux f (n / 10)).length + 1) + n := by rw [hdm, hpow]

lemma natDigitsAux_head (fuel : Nat) :
    ∀ n, n < fuel → ∃ c cs, natDigitsAux fuel n = c :: cs ∧ c.isDigit = true := by
  induction fuel with
  | zero => intro n h; omega
  | succ f ih =>
    intro n h
    by_cases h10 : n < 10
    · exact ⟨digitChar n, [], by simp [natDigitsAux, h10], digitChar_isDigit n h10⟩
    · have hdiv : n / 10 < f := by omega
      obtain ⟨c, cs, hEq, hc⟩ := ih (n / 10) hdiv
      exact ⟨c, cs ++ [digitChar (n % 10)], by simp [natDigitsAux, h10, hEq], hc⟩

lemma parseNat_natDigits (n : Nat) (rest : List Char) (h : nonDigitStart rest = true) :
    parseNat (natDigits n ++ rest) = some (n, rest) := by
  obtain ⟨c, cs, hEq, hc⟩ := natDigitsAux_head (n + 1) n (Nat.lt_succ_self n)
  have hfull : natDigits n ++ rest = c :: (cs ++ rest) := by
    simp [natDigits, hEq]
  rw [hfull]
  simp only [parseNat, hc, if_pos]
  have hback : c :: (cs ++ rest) = natDigitsAux (n + 1) n ++ rest := by
    simp [hEq]
  rw [hback, readDigits_natDigitsAux (n + 1) n 0 rest (Nat.lt_succ_self n)]
  rw [readDigits_nonDigit _ _ h]
  simp

lemma parseInt_intToChars (i : Int) (rest : List Char) (h : nonDigitStart rest = true) :
    parseInt (intToChars i ++ rest) = some (i, rest) := by
  cases i with
  | ofNat n =>
    obtain ⟨c, cs, hEq, hc⟩ := natDigitsAux_head (n + 1) n (Nat.lt_succ_self n)
    have hfull : intToChars (Int.ofNat n) ++ rest = c :: (cs ++ rest) := by
      simp [intToChars, natDigits, hEq]
    rw [hfull]
    simp only [parseInt, if_neg (isDigit_ne_dash hc)]
    have hback : c :: (cs ++ rest) = natDigits n ++ rest := by
      simp [natDigits, hEq]
    rw [hback, parseNat_natDigits n rest h]
    simp
  | negSucc n =>
    have hfull : intToChars (Int.negSucc n) ++ rest = '-' :: (natDigits (n + 1) ++ rest) := by
      simp [intToChars]
    have hneg : Int.negSucc n = -(((n + 1 : Nat) : Int)) := by
      rw [Int.negSucc_eq]
      push_cast
      ring
    rw [hfull]
    simp only [parseInt, if_pos rfl]
    rw [parseNat_natDigits (n + 1) rest h]
    simp [hneg]

lemma parseElems_encodeElems :
    ∀ (tl : List Int) (i : Int) (fuel : Nat) (rest : List Char), tl.length < fuel →
      parseElems fuel (encodeElems (i :: tl) ++ ']' :: rest) = some (i :: tl, rest) := by
  intro tl
  induction tl with
  | nil =>
    intro i fuel rest hf
    obtain ⟨f, rfl⟩ : ∃ f, fuel = f + 1 := ⟨fuel - 1, by omega⟩
    rw [encodeElems_single, parseElems_succ,
      parseInt_intToChars i (']' :: rest) (nonDigitStart_cons _ _ (by decide))]
    rfl
  | cons j tl2 ih =>
    intro i fuel rest hf
    obtain ⟨f, rfl⟩ : ∃ f, fuel = f + 1 := ⟨fuel - 1, by omega⟩
    have hlen : tl2.length < f := by
      simp at hf
      omega
    rw [encodeElems_cons_cons]
    have hsplit : (intToChars i ++ ',' :: encodeElems (j :: tl2)) ++ ']' :: rest
        = intToChars i ++ ',' :: (encodeElems (j :: tl2) ++ ']' :: rest) := by
      simp
    rw [hsplit, parseElems_succ,
      parseInt_intToChars i _ (nonDigitStart_cons _ _ (by decide))]
    show (parseElems f (encodeElems (j :: tl2) ++ ']' :: rest)).map (fun p => (i :: p.1, p.2))
      = some (i :: j :: tl2, rest)
    rw [ih j f rest hlen]
    rfl

lemma intToChars_length_pos (i : Int) : 0 < (intToChars i).length := by
  cases i with
  | ofNat n =>
    obtain ⟨c, cs, hEq, _⟩ := natDigitsAux_head (n + 1) n (Nat.lt_succ_self n)
    simp [intToChars, natDigits, hEq]
  | negSucc n => simp [intToChars]

lemma encodeElems_length (i : Int) (tl : List Int) :
    (i :: tl).length ≤ (encodeElems (i :: tl)).length := by
  induction tl generalizing i with
  | nil => simpa using intToChars_length_pos i
  | cons j tl2 ih =>
    have h1 := intToChars_length_pos i
    have h2 := ih j
    simp only [encodeElems, List.length_append, List.length_cons] at *
    omega

lemma countKey_append (a b : List Ticket) (k : String × Int) :
    countKey (a ++ b) k = countKey a k + countKey b k := by
  simp [countKey, List.countP_append]

lemma countKey_cons (r : Ticket) (store : List Ticket) (k : String × Int) :
    countKey (r :: store) k = countKey store k + (if keyOf r = k then 1 else 0) := by
  simp [countKey, List.countP_cons]

lemma hasKey_false_countKey (store : List Ticket) (k : String × Int)
    (h : hasKey store k = false) : countKey store k = 0 := by
  rw [countKey, List.countP_eq_zero]
  rw [hasKey, List.any_eq_false] at h
  intro t ht
  exact h t ht

lemma hasKey_of_mem (store : List Ticket) (t : Ticket) (ht : t ∈ store) :
    hasKey store (keyOf t) = true := by
  simp [hasKey, List.any_eq_true]
  exact ⟨t, ht, rfl⟩

lemma batchViolates_false_preserve :
    ∀ (rows store : List Ticket), batchViolates store rows = false → atMostOnePerKey store →
      atMostOnePerKey (store ++ rows) := by
  intro rows
  induction rows with
  | nil =>
    intro store _ hinv
    simpa using hinv
  | cons r rs ih =>
    intro store hb hinv
    simp only [batchViolates, Bool.or_eq_false_iff] at hb
    obtain ⟨h1, h2⟩ := hb
    have hstep : atMostOnePerKey (r :: store) := by
      intro k
      rw [countKey_cons]
      by_cases hk : keyOf r = k
      · have h0 : countKey store k = 0 := by
          rw [← hk]
          exact hasKey_false_countKey store (keyOf r) h1
        simp [hk, h0]
      · have := hinv k
        simp [hk]
        omega
    have hrec := ih (r :: store) h2 hstep
    intro k
    have h3 := hrec k
    rw [countKey_append, countKey_cons] at h3
    rw [countKey_append, countKey_cons]
    omega

lemma batchViolates_self (store : List Ticket) :
    ∀ rows : List Ticket, rows ≠ [] → (∀ t ∈ rows, t ∈ store) →
      batchViolates store rows = true := by
  intro rows hne hsub
  cases rows with
  | nil => exact absurd rfl hne
  | cons r rs =>
    simp only [batchViolates, Bool.or_eq_true]
    left
    exact hasKey_of_mem store r (hsub r (by simp))

lemma registrarTickets_fresh (store : List Ticket) (rifaID : String) (numeros : List Int)
    (userID : String) (h : batchViolates store (mkRows rifaID numeros userID) = false) :
    MainGo.registrarTickets .ok store rifaID numeros userID
      = (store ++ mkRows rifaID numeros userID, Except.ok ()) := by
  simp [MainGo.registrarTickets, storeInsertBatch, h]

lemma registrarTickets_conflict (store : List Ticket) (rifaID : String) (numeros : List Int)
    (userID : String) (h : batchViolates store (mkRows rifaID numeros userID) = true) :
    MainGo.registrarTickets .ok store rifaID numeros userID
      = (store, Except.error "error registro") := by
  simp [MainGo.registrarTickets, storeInsertBatch, h]

lemma part000_registrarTickets_fresh (store : List Ticket) (rifaID : String) (numeros : List Int)
    (userID : String) (h : batchViolates store (mkRows rifaID numeros userID) = false) :
    Part000.registrarTickets .ok store rifaID numeros userID
      = (store ++ mkRows rifaID numeros userID, Except.ok ()) := by
  simp [Part000.registrarTickets, storeInsertBatch, h]

lemma part000_registrarTickets_conflict (store : List Ticket) (rifaID : String)
    (numeros : List Int) (userID : String)
    (h : batchViolates store (mkRows rifaID numeros userID) = true) :
    Part000.registrarTickets .ok store rifaID numeros userID
      = (store, Except.error ("status " ++ Nat.repr 409 ++ ": ")) := by
  simp [Part000.registrarTickets, storeInsertBatch, h]

lemma registrarTickets_preserves (mode : StoreMode) (store : List Ticket) (rifaID : String)
    (numeros : List Int) (userID : String) (h : atMostOnePerKey store) :
    atMostOnePerKey (MainGo.registrarTickets mode store rifaID numeros userID).1 := by
  cases mode with
  | down => simpa [MainGo.registrarTickets, storeInsertBatch] using h
  | fail500 => simpa [MainGo.registrarTickets, storeInsertBatch] using h
  | ok =>
    by_cases hb : batchViolates store (mkRows rifaID numeros userID) = true
    · rw [registrarTickets_conflict store rifaID numeros userID hb]
      exact h
    · rw [registrarTickets_fresh store rifaID numeros userID (by simpa using hb)]
      exact batchViolates_false_preserve (mkRows rifaID numeros userID) store
        (by simpa using hb) h

lemma constructEvent_valid (body : Event) (secret : String) :
    constructEvent body { secret := secret, signedBody := body } secret = Except.ok body := by
  simp [constructEvent]

lemma constructEvent_invalid (body : Event) (sig : Sig) (secret : String)
    (h : sig.secret ≠ secret ∨ sig.signedBody ≠ body) :
    constructEvent body sig secret = Except.error "signature verification failed" := by
  rw [constructEvent, if_neg]
  tauto

lemma validarNumeros_conflict (store : List Ticket) (rifaID : String) (numeros : List Int)
    (t : Ticket) (ht : t ∈ store) (h1 : t.rifa_id = rifaID) (h2 : t.number ∈ numeros) :
    MainGo.validarNumeros store rifaID numeros
      = Except.error "algunos numeros ya no estan disponibles" := by
  rw [MainGo.validarNumeros, if_pos]
  rw [List.any_eq_true]
  refine ⟨t, ht, ?_⟩
  rw [Bool.and_eq_true, beq_iff_eq]
  exact ⟨h1, by simpa using h2⟩

/-- C7: serializing the requested numbers into the "numeros" metadata field
at intent creation (toString, the json.Marshal of the slice) and decoding
that field in the webhook handler (decodeNumeros, the json.Unmarshal)
yields the original list, for every list of numbers - in particular [4,9]
decodes back to [4,9]. -/
theorem c7_metadata_roundtrip (l : List Int) :
    decodeNumeros (PaymentsRifas.toString l) = some l := by
  cases l with
  | nil => rfl
  | cons i tl =>
    have hne : encodeElems (i :: tl) ++ [']'] ≠ [']'] := by
      intro hEq
      have hlen := congrArg List.length hEq
      rw [List.length_append] at hlen
      have h2 := encodeElems_length i tl
      simp only [List.length_cons, List.length_singleton] at hlen h2
      omega
    have hstep : decodeNumeros (PaymentsRifas.toString (i :: tl))
        = (if encodeElems (i :: tl) ++ [']'] = [']'] then some []
           else
             match parseElems (encodeElems (i :: tl) ++ [']']).length
                 (encodeElems (i :: tl) ++ [']']) with
             | some (r, []) => some r
             | _ => none) := rfl
    rw [hstep, if_neg hne]
    have hfl : tl.length < (encodeElems (i :: tl) ++ [']']).length := by
      have h2 := encodeElems_length i tl
      rw [List.length_append]
      simp only [List.length_cons, List.length_singleton] at h2 ⊢
      omega
    have hsplit : encodeElems (i :: tl) ++ [']'] = encodeElems (i :: tl) ++ ']' :: [] := rfl
    rw [show parseElems (encodeElems (i :: tl) ++ [']']).length (encodeElems (i :: tl) ++ [']'])
        = parseElems (encodeElems (i :: tl) ++ [']']).length (encodeElems (i :: tl) ++ ']' :: [])
      from rfl]
    rw [parseElems_encodeElems tl i (encodeElems (i :: tl) ++ [']']).length [] hfl]

/-- C1 counterexample: with item price 500 (the claim reads it as cents)
and three requested numbers, the code sends amount 150000 = 500 x 3 x 100
to the provider, not 1500 - both variants multiply by a further 100. -/
theorem c1_counterexample :
    ((MainGo.CreatePaymentIntent
        (fun i => if i = "R" then some { id := "R", price := 500, title := "T" } else none)
        [] true
        (some { rifaId := "R", numeros := [1, 2, 3], userId := "u", email := "e" })).intents.map
      IntentParams.amount) = [150000] ∧ (150000 : Int) ≠ 1500 := by
  constructor
  · rfl
  · decide

/-- C1 (amended): for every create-intent request that reaches the
provider call, the amount is the item's stored price times the count of
requested numbers times a further 100 (the code converts the stored price
into a minor unit), in both variants. -/
theorem c1_amount (catalog : String → Option Rifa) (store : List Ticket) (stripeOk : Bool)
    (req : PaymentRequest) (rifa : Rifa) (hcat : catalog req.rifaId = some rifa)
    (hok : MainGo.validarNumeros store req.rifaId req.numeros = Except.ok ()) :
    ((MainGo.CreatePaymentIntent catalog store stripeOk (some req)).intents.map
        IntentParams.amount) = [rifa.price * (req.numeros.length : Int) * 100]
    ∧ ((Part000.CreatePaymentIntent catalog store stripeOk (some req)).intents.map
        IntentParams.amount) = [rifa.price * (req.numeros.length : Int) * 100] := by
  constructor
  · simp only [MainGo.CreatePaymentIntent, hcat, hok]
    cases stripeOk <;> simp
  · simp only [Part000.CreatePaymentIntent, hcat]
    cases stripeOk <;> simp

/-- C1 witness: the amended amount law at price 500 and numbers [1,2,3]. -/
theorem c1_amount_witness :
    ((MainGo.CreatePaymentIntent
        (fun i => if i = "R2" then some { id := "R2", price := 500, title := "T" } else none)
        [] true
        (some { rifaId := "R2", numeros := [1, 2, 3], userId := "u", email := "e" })).intents.map
      IntentParams.amount) = [150000]
    ∧ ((Part000.CreatePaymentIntent
        (fun i => if i = "R2" then some { id := "R2", price := 500, title := "T" } else none)
        [] true
        (some { rifaId := "R2", numeros := [1, 2, 3], userId := "u", email := "e" })).intents.map
      IntentParams.amount) = [150000] := by
  have h := c1_amount
    (fun i => if i = "R2" then some { id := "R2", price := 500, title := "T" } else none)
    [] true { rifaId := "R2", numeros := [1, 2, 3], userId := "u", email := "e" }
    { id := "R2", price := 500, title := "T" } (by rfl) (by rfl)
  constructor
  · rw [h.1]
    norm_num
  · rw [h.2]
    norm_num

/-- C4 counterexample: the part_000 variant creates a payment intent for a
request whose numbers overlap an existing ticket - with (X,7) already
stored, a request for number 7 on item X is answered 200 and the provider
call is made, not 409: no availability check gates this variant. -/
theorem c4_counterexample :
    (Part000.CreatePaymentIntent
        (fun i => if i = "X" then some { id := "X", price := 10, title := "T" } else none)
        [{ rifa_id := "X", number := 7, profile_id := "u1" }] true
        (some { rifaId := "X", numeros := [7], userId := "u2", email := "e" })).status = 200
    ∧ (Part000.CreatePaymentIntent
        (fun i => if i = "X" then some { id := "X", price := 10, title := "T" } else none)
        [{ rifa_id := "X", number := 7, profile_id := "u1" }] true
        (some { rifaId := "X", numeros := [7], userId := "u2", email := "e" })).intents ≠ [] := by
  constructor
  · rfl
  · decide

/-- C4 (amended): in main.go an overlap with an existing ticket makes
create-intent answer 409 before any provider call, and every provider call
implies the availability check passed; the part_000 variant performs no
availability check and creates the intent despite the overlap. -/
theorem c4_gate (catalog : String → Option Rifa) (store : List Ticket) (stripeOk : Bool)
    (req : PaymentRequest) (rifa : Rifa) (t : Ticket)
    (hcat : catalog req.rifaId = some rifa)
    (ht : t ∈ store) (h1 : t.rifa_id = req.rifaId) (h2 : t.number ∈ req.numeros) :
    MainGo.CreatePaymentIntent catalog store stripeOk (some req)
        = { status := 409, intents := [] }
    ∧ (stripeOk = true →
        (Part000.CreatePaymentIntent catalog store stripeOk (some req)).status = 200
        ∧ (Part000.CreatePaymentIntent catalog store stripeOk (some req)).intents.length = 1) := by
  have herr := validarNumeros_conflict store req.rifaId req.numeros t ht h1 h2
  constructor
  · simp [MainGo.CreatePaymentIntent, hcat, herr]
  · intro hs
    subst hs
    constructor <;> simp [Part000.CreatePaymentIntent, hcat]

/-- C4 witness: the amended gate at a concrete overlapping request. -/
theorem c4_gate_witness :
    MainGo.CreatePaymentIntent
        (fun i => if i = "Y" then some { id := "Y", price := 10, title := "T" } else none)
        [{ rifa_id := "Y", number := 7, profile_id := "u1" }] true
        (some { rifaId := "Y", numeros := [7], userId := "u2", email := "e" })
        = { status := 409, intents := [] }
    ∧ (true = true →
        (Part000.CreatePaymentIntent
            (fun i => if i = "Y" then some { id := "Y", price := 10, title := "T" } else none)
            [{ rifa_id := "Y", number := 7, profile_id := "u1" }] true
            (some { rifaId := "Y", numeros := [7], userId := "u2", email := "e" })).status = 200
        ∧ (Part000.CreatePaymentIntent
            (fun i => if i = "Y" then some { id := "Y", price := 10, title := "T" } else none)
            [{ rifa_id := "Y", number := 7, profile_id := "u1" }] true
            (some { rifaId := "Y", numeros := [7], userId := "u2", email := "e" })).intents.length
          = 1) :=
  c4_gate
    (fun i => if i = "Y" then some { id := "Y", price := 10, title := "T" } else none)
    [{ rifa_id := "Y", number := 7, profile_id := "u1" }] true
    { rifaId := "Y", numeros := [7], userId := "u2", email := "e" }
    { id := "Y", price := 10, title := "T" }
    { rifa_id := "Y", number := 7, profile_id := "u1" }
    (by rfl) (by simp) (by rfl) (by simp)

/-- C6: a webhook request whose signature was computed with a different
secret, or over a body other than the one delivered, is answered 400 and
triggers no store insert and no notification attempt, in both variants. -/
theorem c6_signature_gate (endpointSecret : String) (mode : StoreMode) (store : List Ticket)
    (readOk : Bool) (body : Event) (sig : Sig) (piParseOk emailOk : Bool)
    (h : sig.secret ≠ endpointSecret ∨ sig.signedBody ≠ body) :
    MainGo.HandleStripeWebhook endpointSecret mode store readOk body sig emailOk
        = { status := 400, store := store, attempts := [], emails := [] }
    ∧ Part000.HandleStripeWebhook endpointSecret mode store readOk body sig piParseOk emailOk
        = { status := 400, store := store, attempts := [], emails := [] } := by
  have hver := constructEvent_invalid body sig endpointSecret h
  cases readOk
  · constructor <;> rfl
  · constructor <;>
      simp [MainGo.HandleStripeWebhook, Part000.HandleStripeWebhook, hver]

/-- C6 witness: a signature computed with a different secret is rejected
with 400 and store and notifier stay untouched. -/
theorem c6_signature_gate_witness :
    MainGo.HandleStripeWebhook "whsec" .ok [] true
        { type := "payment_intent.succeeded", metadata := [] }
        { secret := "other", signedBody := { type := "payment_intent.succeeded", metadata := [] } }
        true
        = { status := 400, store := [], attempts := [], emails := [] }
    ∧ Part000.HandleStripeWebhook "whsec" .ok [] true
        { type := "payment_intent.succeeded", metadata := [] }
        { secret := "other", signedBody := { type := "payment_intent.succeeded", metadata := [] } }
        true true
        = { status := 400, store := [], attempts := [], emails := [] } :=
  c6_signature_gate "whsec" .ok [] true
    { type := "payment_intent.succeeded", metadata := [] }
    { secret := "other", signedBody := { type := "payment_intent.succeeded", metadata := [] } }
    true true (Or.inl (by decide))

/-- C8: the webhook's HTTP status, resulting store and insert attempts are
independent of the notification outcome - flipping only whether the
confirmation email send succeeds changes none of them, in both variants;
the outcome is recorded (logged) only. -/
theorem c8_email_independent (endpointSecret : String) (mode : StoreMode) (store : List Ticket)
    (readOk : Bool) (body : Event) (sig : Sig) (piParseOk : Bool) (e1 e2 : Bool) :
    ((MainGo.HandleStripeWebhook endpointSecret mode store readOk body sig e1).status
        = (MainGo.HandleStripeWebhook endpointSecret mode store readOk body sig e2).status
      ∧ (MainGo.HandleStripeWebhook endpointSecret mode store readOk body sig e1).store
        = (MainGo.HandleStripeWebhook endpointSecret mode store readOk body sig e2).store
      ∧ (MainGo.HandleStripeWebhook endpointSecret mode store readOk body sig e1).attempts
        = (MainGo.HandleStripeWebhook endpointSecret mode store readOk body sig e2).attempts)
    ∧ ((Part000.HandleStripeWebhook endpointSecret mode store readOk body sig piParseOk e1).status
        = (Part000.HandleStripeWebhook endpointSecret mode store readOk body sig piParseOk
            e2).status
      ∧ (Part000.HandleStripeWebhook endpointSecret mode store readOk body sig piParseOk e1).store
        = (Part000.HandleStripeWebhook endpointSecret mode store readOk body sig piParseOk
            e2).store
      ∧ (Part000.HandleStripeWebhook endpointSecret mode store readOk body sig piParseOk
            e1).attempts
        = (Part000.HandleStripeWebhook endpointSecret mode store readOk body sig piParseOk
            e2).attempts) := by
  constructor
  · unfold MainGo.HandleStripeWebhook
    split
    · exact ⟨rfl, rfl, rfl⟩
    · split
      · exact ⟨rfl, rfl, rfl⟩
      · split
        · dsimp only
          split <;> exact ⟨rfl, rfl, rfl⟩
        · exact ⟨rfl, rfl, rfl⟩
  · unfold Part000.HandleStripeWebhook
    split
    · exact ⟨rfl, rfl, rfl⟩
    · split
      · exact ⟨rfl, rfl, rfl⟩
      · split
        · split
          · exact ⟨rfl, rfl, rfl⟩
          · dsimp only
            split <;> exact ⟨rfl, rfl, rfl⟩
        · exact ⟨rfl, rfl, rfl⟩

/-- C2 counterexample: delivering the identical verified succeeded event a
second time to the part_000 variant is answered 500, not a success status -
the duplicate batch is rejected by the store's constraint, registrarTickets
reports an error, and this variant maps every commit error to 500. -/
theorem c2_counterexample :
    (Part000.HandleStripeWebhook "whsec" .ok
        (Part000.HandleStripeWebhook "whsec" .ok [] true
          { type := "payment_intent.succeeded",
            metadata := [("rifa_id", "X"), ("rifa_title", "T"), ("user_id", "u1"),
                         ("user_email", "e"), ("numeros", "[4,9]")] }
          { secret := "whsec",
            signedBody :=
              { type := "payment_intent.succeeded",
                metadata := [("rifa_id", "X"), ("rifa_title", "T"), ("user_id", "u1"),
                             ("user_email", "e"), ("numeros", "[4,9]")] } }
          true true).store
        true
        { type := "payment_intent.succeeded",
          metadata := [("rifa_id", "X"), ("rifa_title", "T"), ("user_id", "u1"),
                       ("user_email", "e"), ("numeros", "[4,9]")] }
        { secret := "whsec",
          signedBody :=
            { type := "payment_intent.succeeded",
              metadata := [("rifa_id", "X"), ("rifa_title", "T"), ("user_id", "u1"),
                           ("user_email", "e"), ("numeros", "[4,9]")] } }
        true true).status = 500
    ∧ ¬(200 ≤ 500 ∧ 500 < 300) := by
  constructor
  · rfl
  · decide

/-- C2 (amended): delivering the identical verified succeeded event twice
inserts the ticket rows exactly once - the second delivery leaves the
store unchanged in both variants; main.go acknowledges the second delivery
with 200 (its log-and-return path writes no error status), while the
part_000 variant answers it 500, requesting redelivery. -/
theorem c2_replay (endpointSecret : String) (store : List Ticket) (body : Event)
    (emailOk : Bool) (numeros : List Int)
    (htype : body.type = "payment_intent.succeeded")
    (hdec : decodeNumeros (mapGet body.metadata "numeros") = some numeros)
    (hne : numeros ≠ [])
    (hfresh : batchViolates store (mkRows (mapGet body.metadata "rifa_id") numeros
        (mapGet body.metadata "user_id")) = false) :
    (MainGo.HandleStripeWebhook endpointSecret .ok store true body
        { secret := endpointSecret, signedBody := body } emailOk).store
      = store ++ mkRows (mapGet body.metadata "rifa_id") numeros (mapGet body.metadata "user_id")
    ∧ (MainGo.HandleStripeWebhook endpointSecret .ok
        (store ++ mkRows (mapGet body.metadata "rifa_id") numeros (mapGet body.metadata "user_id"))
        true body { secret := endpointSecret, signedBody := body } emailOk).store
      = store ++ mkRows (mapGet body.metadata "rifa_id") numeros (mapGet body.metadata "user_id")
    ∧ (MainGo.HandleStripeWebhook endpointSecret .ok
        (store ++ mkRows (mapGet body.metadata "rifa_id") numeros (mapGet body.metadata "user_id"))
        true body { secret := endpointSecret, signedBody := body } emailOk).status = 200
    ∧ (Part000.HandleStripeWebhook endpointSecret .ok store true body
        { secret := endpointSecret, signedBody := body } true emailOk).store
      = store ++ mkRows (mapGet body.metadata "rifa_id") numeros (mapGet body.metadata "user_id")
    ∧ (Part000.HandleStripeWebhook endpointSecret .ok
        (store ++ mkRows (mapGet body.metadata "rifa_id") numeros (mapGet body.metadata "user_id"))
        true body { secret := endpointSecret, signedBody := body } true emailOk).store
      = store ++ mkRows (mapGet body.metadata "rifa_id") numeros (mapGet body.metadata "user_id")
    ∧ (Part000.HandleStripeWebhook endpointSecret .ok
        (store ++ mkRows (mapGet body.metadata "rifa_id") numeros (mapGet body.metadata "user_id"))
        true body { secret := endpointSecret, signedBody := body } true emailOk).status = 500 := by
  have hrne : mkRows (mapGet body.metadata "rifa_id") numeros (mapGet body.metadata "user_id")
      ≠ [] := by
    simp [mkRows]
    exact hne
  have hconf : batchViolates
      (store ++ mkRows (mapGet body.metadata "rifa_id") numeros (mapGet body.metadata "user_id"))
      (mkRows (mapGet body.metadata "rifa_id") numeros (mapGet body.metadata "user_id")) = true :=
    batchViolates_self _ _ hrne (fun t ht => List.mem_append_right store ht)
  refine ⟨?_, ?_, ?_, ?_, ?_, ?_⟩ <;>
    simp [MainGo.HandleStripeWebhook, Part000.HandleStripeWebhook, constructEvent_valid, htype,
      hdec, registrarTickets_fresh _ _ _ _ hfresh, registrarTickets_conflict _ _ _ _ hconf,
      part000_registrarTickets_fresh _ _ _ _ hfresh,
      part000_registrarTickets_conflict _ _ _ _ hconf]

/-- C2 witness: the replay law at a concrete succeeded event with numbers
[4,9] starting from the empty store. -/
theorem c2_replay_witness :
    (MainGo.HandleStripeWebhook "whsec" .ok [] true
        { type := "payment_intent.succeeded",
          metadata := [("rifa_id", "X"), ("rifa_title", "T"), ("user_id", "u1"),
                       ("user_email", "e"), ("numeros", "[4,9]")] }
        { secret := "whsec",
          signedBody :=
            { type := "payment_intent.succeeded",
              metadata := [("rifa_id", "X"), ("rifa_title", "T"), ("user_id", "u1"),
                           ("user_email", "e"), ("numeros", "[4,9]")] } }
        true).store
      = [] ++ mkRows
          (mapGet [("rifa_id", "X"), ("rifa_title", "T"), ("user_id", "u1"),
                   ("user_email", "e"), ("numeros", "[4,9]")] "rifa_id")
          [4, 9]
          (mapGet [("rifa_id", "X"), ("rifa_title", "T"), ("user_id", "u1"),
                   ("user_email", "e"), ("numeros", "[4,9]")] "user_id")
    ∧ (MainGo.HandleStripeWebhook "whsec" .ok
        ([] ++ mkRows
          (mapGet [("rifa_id", "X"), ("rifa_title", "T"), ("user_id", "u1"),
                   ("user_email", "e"), ("numeros", "[4,9]")] "rifa_id")
          [4, 9]
          (mapGet [("rifa_id", "X"), ("rifa_title", "T"), ("user_id", "u1"),
                   ("user_email", "e"), ("numeros", "[4,9]")] "user_id"))
        true
        { type := "payment_intent.succeeded",
          metadata := [("rifa_id", "X"), ("rifa_title", "T"), ("user_id", "u1"),
                       ("user_email", "e"), ("numeros", "[4,9]")] }
        { secret := "whsec",
          signedBody :=
            { type := "payment_intent.succeeded",
              metadata := [("rifa_id", "X"), ("rifa_title", "T"), ("user_id", "u1"),
                           ("user_email", "e"), ("numeros", "[4,9]")] } }
        true).store
      = [] ++ mkRows
          (mapGet [("rifa_id", "X"), ("rifa_title", "T"), ("user_id", "u1"),
                   ("user_email", "e"), ("numeros", "[4,9]")] "rifa_id")
          [4, 9]
          (mapGet [("rifa_id", "X"), ("rifa_title", "T"), ("user_id", "u1"),
                   ("user_email", "e"), ("numeros", "[4,9]")] "user_id")
    ∧ (MainGo.HandleStripeWebhook "whsec" .ok
        ([] ++ mkRows
          (mapGet [("rifa_id", "X"), ("rifa_title", "T"), ("user_id", "u1"),
                   ("user_email", "e"), ("numeros", "[4,9]")] "rifa_id")
          [4, 9]
          (mapGet [("rifa_id", "X"), ("rifa_title", "T"), ("user_id", "u1"),
                   ("user_email", "e"), ("numeros", "[4,9]")] "user_id"))
        true
        { type := "payment_intent.succeeded",
          metadata := [("rifa_id", "X"), ("rifa_title", "T"), ("user_id", "u1"),
                       ("user_email", "e"), ("numeros", "[4,9]")] }
        { secret := "whsec",
          signedBody :=
            { type := "payment_intent.succeeded",
              metadata := [("rifa_id", "X"), ("rifa_title", "T"), ("user_id", "u1"),
                           ("user_email", "e"), ("numeros", "[4,9]")] } }
        true).status = 200
    ∧ (Part000.HandleStripeWebhook "whsec" .ok [] true
        { type := "payment_intent.succeeded",
          metadata := [("rifa_id", "X"), ("rifa_title", "T"), ("user_id", "u1"),
                       ("user_email", "e"), ("numeros", "[4,9]")] }
        { secret := "whsec",
          signedBody :=
            { type := "payment_intent.succeeded",
              metadata := [("rifa_id", "X"), ("rifa_title", "T"), ("user_id", "u1"),
                           ("user_email", "e"), ("numeros", "[4,9]")] } }
        true true).store
      = [] ++ mkRows
          (mapGet [("rifa_id", "X"), ("rifa_title", "T"), ("user_id", "u1"),
                   ("user_email", "e"), ("numeros", "[4,9]")] "rifa_id")
          [4, 9]
          (mapGet [("rifa_id", "X"), ("rifa_title", "T"), ("user_id", "u1"),
                   ("user_email", "e"), ("numeros", "[4,9]")] "user_id")
    ∧ (Part000.HandleStripeWebhook "whsec" .ok
        ([] ++ mkRows
          (mapGet [("rifa_id", "X"), ("rifa_title", "T"), ("user_id", "u1"),
                   ("user_email", "e"), ("numeros", "[4,9]")] "rifa_id")
          [4, 9]
          (mapGet [("rifa_id", "X"), ("rifa_title", "T"), ("user_id", "u1"),
                   ("user_email", "e"), ("numeros", "[4,9]")] "user_id"))
        true
        { type := "payment_intent.succeeded",
          metadata := [("rifa_id", "X"), ("rifa_title", "T"), ("user_id", "u1"),
                       ("user_email", "e"), ("numeros", "[4,9]")] }
        { secret := "whsec",
          signedBody :=
            { type := "payment_intent.succeeded",
              metadata := [("rifa_id", "X"), ("rifa_title", "T"), ("user_id", "u1"),
                           ("user_email", "e"), ("numeros", "[4,9]")] } }
        true true).store
      = [] ++ mkRows
          (mapGet [("rifa_id", "X"), ("rifa_title", "T"), ("user_id", "u1"),
                   ("user_email", "e"), ("numeros", "[4,9]")] "rifa_id")
          [4, 9]
          (mapGet [("rifa_id", "X"), ("rifa_title", "T"), ("user_id", "u1"),
                   ("user_email", "e"), ("numeros", "[4,9]")] "user_id")
    ∧ (Part000.HandleStripeWebhook "whsec" .ok
        ([] ++ mkRows
          (mapGet [("rifa_id", "X"), ("rifa_title", "T"), ("user_id", "u1"),
                   ("user_email", "e"), ("numeros", "[4,9]")] "rifa_id")
          [4, 9]
          (mapGet [("rifa_id", "X"), ("rifa_title", "T"), ("user_id", "u1"),
                   ("user_email", "e"), ("numeros", "[4,9]")] "user_id"))
        true
        { type := "payment_intent.succeeded",
          metadata := [("rifa_id", "X"), ("rifa_title", "T"), ("user_id", "u1"),
                       ("user_email", "e"), ("numeros", "[4,9]")] }
        { secret := "whsec",
          signedBody :=
            { type := "payment_intent.succeeded",
              metadata := [("rifa_id", "X"), ("rifa_title", "T"), ("user_id", "u1"),
                           ("user_email", "e"), ("numeros", "[4,9]")] } }
        true true).status = 500 :=
  c2_replay "whsec" []
    { type := "payment_intent.succeeded",
      metadata := [("rifa_id", "X"), ("rifa_title", "T"), ("user_id", "u1"),
                   ("user_email", "e"), ("numeros", "[4,9]")] }
    true [4, 9] (by rfl) (by rfl) (by decide) (by rfl)

/-- C5 counterexample: when the store is unreachable while persisting the
tickets of a verified succeeded event, main.go still answers 200 - it logs
the error and returns without writing a status, so net/http acknowledges
the delivery and the provider never redelivers; the claimed non-2xx does
not hold. -/
theorem c5_counterexample :
    (MainGo.HandleStripeWebhook "whsec" .down [] true
        { type := "payment_intent.succeeded",
          metadata := [("rifa_id", "X"), ("rifa_title", "T"), ("user_id", "u1"),
                       ("user_email", "e"), ("numeros", "[7]")] }
        { secret := "whsec",
          signedBody :=
            { type := "payment_intent.succeeded",
              metadata := [("rifa_id", "X"), ("rifa_title", "T"), ("user_id", "u1"),
                           ("user_email", "e"), ("numeros", "[7]")] } }
        true).status = 200
    ∧ ¬(500 ≤ (MainGo.HandleStripeWebhook "whsec" .down [] true
        { type := "payment_intent.succeeded",
          metadata := [("rifa_id", "X"), ("rifa_title", "T"), ("user_id", "u1"),
                       ("user_email", "e"), ("numeros", "[7]")] }
        { secret := "whsec",
          signedBody :=
            { type := "payment_intent.succeeded",
              metadata := [("rifa_id", "X"), ("rifa_title", "T"), ("user_id", "u1"),
                           ("user_email", "e"), ("numeros", "[7]")] } }
        true).status) := by
  constructor
  · rfl
  · decide

/-- C5 (amended): on a store failure while persisting a verified succeeded
event, the part_000 variant answers 500 (requesting redelivery) but
main.go answers 200; and the part_000 variant also answers 500 for an
already-allocated duplicate batch - no variant distinguishes the terminal
duplicate from a transient store failure. -/
theorem c5_store_failure (endpointSecret : String) (store : List Ticket) (body : Event)
    (emailOk : Bool) (mode : StoreMode)
    (htype : body.type = "payment_intent.succeeded")
    (hmode : mode = StoreMode.down ∨ mode = StoreMode.fail500) :
    (Part000.HandleStripeWebhook endpointSecret mode store true body
        { secret := endpointSecret, signedBody := body } true emailOk).status = 500
    ∧ (MainGo.HandleStripeWebhook endpointSecret mode store true body
        { secret := endpointSecret, signedBody := body } emailOk).status = 200
    ∧ (∀ numeros : List Int, decodeNumeros (mapGet body.metadata "numeros") = some numeros →
        batchViolates store (mkRows (mapGet body.metadata "rifa_id") numeros
          (mapGet body.metadata "user_id")) = true →
        (Part000.HandleStripeWebhook endpointSecret .ok store true body
            { secret := endpointSecret, signedBody := body } true emailOk).status = 500) := by
  refine ⟨?_, ?_, ?_⟩
  · rcases hmode with rfl | rfl <;>
      simp [Part000.HandleStripeWebhook, constructEvent_valid, htype,
        Part000.registrarTickets, storeInsertBatch]
  · rcases hmode with rfl | rfl <;>
      simp [MainGo.HandleStripeWebhook, constructEvent_valid, htype,
        MainGo.registrarTickets, storeInsertBatch]
  · intro numeros hdec hconf
    simp [Part000.HandleStripeWebhook, constructEvent_valid, htype, hdec,
      part000_registrarTickets_conflict _ _ _ _ hconf]

/-- C5 witness: the amended store-failure law at a concrete verified
succeeded event with the store down. -/
theorem c5_store_failure_witness :
    (Part000.HandleStripeWebhook "whsec" .down [] true
        { type := "payment_intent.succeeded",
          metadata := [("rifa_id", "X"), ("rifa_title", "T"), ("user_id", "u1"),
                       ("user_email", "e"), ("numeros", "[7]")] }
        { secret := "whsec",
          signedBody :=
            { type := "payment_intent.succeeded",
              metadata := [("rifa_id", "X"), ("rifa_title", "T"), ("user_id", "u1"),
                           ("user_email", "e"), ("numeros", "[7]")] } }
        true true).status = 500
    ∧ (MainGo.HandleStripeWebhook "whsec" .down [] true
        { type := "payment_intent.succeeded",
          metadata := [("rifa_id", "X"), ("rifa_title", "T"), ("user_id", "u1"),
                       ("user_email", "e"), ("numeros", "[7]")] }
        { secret := "whsec",
          signedBody :=
            { type := "payment_intent.succeeded",
              metadata := [("rifa_id", "X"), ("rifa_title", "T"), ("user_id", "u1"),
                           ("user_email", "e"), ("numeros", "[7]")] } }
        true).status = 200
    ∧ (∀ numeros : List Int,
        decodeNumeros (mapGet [("rifa_id", "X"), ("rifa_title", "T"), ("user_id", "u1"),
            ("user_email", "e"), ("numeros", "[7]")] "numeros") = some numeros →
        batchViolates []
          (mkRows (mapGet [("rifa_id", "X"), ("rifa_title", "T"), ("user_id", "u1"),
              ("user_email", "e"), ("numeros", "[7]")] "rifa_id") numeros
            (mapGet [("rifa_id", "X"), ("rifa_title", "T"), ("user_id", "u1"),
              ("user_email", "e"), ("numeros", "[7]")] "user_id")) = true →
        (Part000.HandleStripeWebhook "whsec" .ok [] true
            { type := "payment_intent.succeeded",
              metadata := [("rifa_id", "X"), ("rifa_title", "T"), ("user_id", "u1"),
                           ("user_email", "e"), ("numeros", "[7]")] }
            { secret := "whsec",
              signedBody :=
                { type := "payment_intent.succeeded",
                  metadata := [("rifa_id", "X"), ("rifa_title", "T"), ("user_id", "u1"),
                               ("user_email", "e"), ("numeros", "[7]")] } }
            true true).status = 500) :=
  c5_store_failure "whsec" []
    { type := "payment_intent.succeeded",
      metadata := [("rifa_id", "X"), ("rifa_title", "T"), ("user_id", "u1"),
                   ("user_email", "e"), ("numeros", "[7]")] }
    true .down (by rfl) (Or.inl rfl)

/-- C9: a verified succeeded event whose "numeros" metadata is absent or
not valid JSON is still committed: the decode error is ignored, the commit
runs with the empty list - a single batch-insert attempt of zero rows that
leaves the store unchanged - and both variants acknowledge the event with
200; the notification is attempted with the empty list too. -/
theorem c9_bad_numeros_acknowledged (endpointSecret : String) (store : List Ticket) (body : Event)
    (emailOk : Bool)
    (htype : body.type = "payment_intent.succeeded")
    (hdec : decodeNumeros (mapGet body.metadata "numeros") = none) :
    MainGo.HandleStripeWebhook endpointSecret .ok store true body
        { secret := endpointSecret, signedBody := body } emailOk
      = { status := 200, store := store, attempts := [[]],
          emails := [{ destinatario := mapGet body.metadata "user_email",
                       rifaNombre := mapGet body.metadata "rifa_title",
                       numeros := [], delivered := emailOk }] }
    ∧ Part000.HandleStripeWebhook endpointSecret .ok store true body
        { secret := endpointSecret, signedBody := body } true emailOk
      = { status := 200, store := store, attempts := [[]],
          emails := [{ destinatario := mapGet body.metadata "user_email",
                       rifaNombre := mapGet body.metadata "rifa_title",
                       numeros := [], delivered := emailOk }] } := by
  constructor <;>
    simp [MainGo.HandleStripeWebhook, Part000.HandleStripeWebhook, constructEvent_valid, htype,
      hdec, MainGo.registrarTickets, Part000.registrarTickets, storeInsertBatch, batchViolates,
      mkRows]

/-- C9 witness: a succeeded event with no "numeros" key at all is
acknowledged 200 with a zero-row insert attempt. -/
theorem c9_bad_numeros_acknowledged_witness :
    MainGo.HandleStripeWebhook "whsec" .ok [] true
        { type := "payment_intent.succeeded",
          metadata := [("rifa_id", "X"), ("rifa_title", "T"), ("user_id", "u1"),
                       ("user_email", "e")] }
        { secret := "whsec",
          signedBody :=
            { type := "payment_intent.succeeded",
              metadata := [("rifa_id", "X"), ("rifa_title", "T"), ("user_id", "u1"),
                           ("user_email", "e")] } }
        true
      = { status := 200, store := [], attempts := [[]],
          emails := [{ destinatario := mapGet [("rifa_id", "X"), ("rifa_title", "T"),
                         ("user_id", "u1"), ("user_email", "e")] "user_email",
                       rifaNombre := mapGet [("rifa_id", "X"), ("rifa_title", "T"),
                         ("user_id", "u1"), ("user_email", "e")] "rifa_title",
                       numeros := [], delivered := true }] }
    ∧ Part000.HandleStripeWebhook "whsec" .ok [] true
        { type := "payment_intent.succeeded",
          metadata := [("rifa_id", "X"), ("rifa_title", "T"), ("user_id", "u1"),
                       ("user_email", "e")] }
        { secret := "whsec",
          signedBody :=
            { type := "payment_intent.succeeded",
              metadata := [("rifa_id", "X"), ("rifa_title", "T"), ("user_id", "u1"),
                           ("user_email", "e")] } }
        true true
      = { status := 200, store := [], attempts := [[]],
          emails := [{ destinatario := mapGet [("rifa_id", "X"), ("rifa_title", "T"),
                         ("user_id", "u1"), ("user_email", "e")] "user_email",
                       rifaNombre := mapGet [("rifa_id", "X"), ("rifa_title", "T"),
                         ("user_id", "u1"), ("user_email", "e")] "rifa_title",
                       numeros := [], delivered := true }] } :=
  c9_bad_numeros_acknowledged "whsec" []
    { type := "payment_intent.succeeded",
      metadata := [("rifa_id", "X"), ("rifa_title", "T"), ("user_id", "u1"),
                   ("user_email", "e")] }
    true (by rfl) (by rfl)

/-- C3 counterexample: the losing commit does not report AlreadyAllocated
for the specific contested number - main.go returns the identical blanket
"error registro" whether number 7 conflicts, number 9 conflicts, or the
store merely fails with a 500, so the error identifies neither the number
nor even that the cause was an allocation conflict. -/
theorem c3_counterexample :
    (MainGo.registrarTickets .ok [{ rifa_id := "X", number := 7, profile_id := "u1" }]
        "X" [7] "u2").2 = Except.error "error registro"
    ∧ (MainGo.registrarTickets .ok [{ rifa_id := "X", number := 9, profile_id := "u1" }]
        "X" [9] "u2").2 = Except.error "error registro"
    ∧ (MainGo.registrarTickets .fail500 [] "X" [7] "u2").2
        = Except.error "error registro" :=
  ⟨rfl, rfl, rfl⟩

/-- C3 (amended): the store's uniqueness constraint keeps at most one
ticket per (item, number) pair under both orders of two commits - the
at-most-one invariant is preserved whatever the modes, items, numbers and
buyers of the two deliveries - and in the concrete contention of two
buyers for number 7 on item X exactly one ticket for (X,7) remains, while
the loser receives only the blanket "error registro". -/
theorem c3_at_most_one (store : List Ticket) (h : atMostOnePerKey store)
    (m1 m2 : StoreMode) (r1 r2 u1 u2 : String) (l1 l2 : List Int) :
    atMostOnePerKey (MainGo.registrarTickets m2
        (MainGo.registrarTickets m1 store r1 l1 u1).1 r2 l2 u2).1
    ∧ atMostOnePerKey (MainGo.registrarTickets m1
        (MainGo.registrarTickets m2 store r2 l2 u2).1 r1 l1 u1).1
    ∧ countKey (MainGo.registrarTickets .ok
        (MainGo.registrarTickets .ok [] "X" [7] "u1").1 "X" [7] "u2").1 ("X", 7) = 1
    ∧ (MainGo.registrarTickets .ok
        (MainGo.registrarTickets .ok [] "X" [7] "u1").1 "X" [7] "u2").2
      = Except.error "error registro" := by
  refine ⟨?_, ?_, rfl, rfl⟩
  · exact registrarTickets_preserves _ _ _ _ _ (registrarTickets_preserves _ _ _ _ _ h)
  · exact registrarTickets_preserves _ _ _ _ _ (registrarTickets_preserves _ _ _ _ _ h)

/-- C3 witness: the uniqueness law applied from the empty store with two
contending commits. -/
theorem c3_at_most_one_witness :
    atMostOnePerKey (MainGo.registrarTickets .ok
        (MainGo.registrarTickets .ok [] "X" [7] "u1").1 "X" [7] "u2").1
    ∧ atMostOnePerKey (MainGo.registrarTickets .ok
        (MainGo.registrarTickets .ok [] "X" [7] "u2").1 "X" [7] "u1").1
    ∧ countKey (MainGo.registrarTickets .ok
        (MainGo.registrarTickets .ok [] "X" [7] "u1").1 "X" [7] "u2").1 ("X", 7) = 1
    ∧ (MainGo.registrarTickets .ok
        (MainGo.registrarTickets .ok [] "X" [7] "u1").1 "X" [7] "u2").2
      = Except.error "error registro" :=
  c3_at_most_one [] (fun k => by simp [countKey]) .ok .ok "X" "X" "u1" "u2" [7] [7]

/-- C10 counterexample: with price 500 and the duplicate-containing list
[7,7], the charged amount is 100000 = 500 x 2 x 100, not the claimed
"price times the full list length" 1000 - duplicates are indeed counted,
but through the code's extra factor of 100. -/
theorem c10_counterexample :
    ((MainGo.CreatePaymentIntent
        (fun i => if i = "D" then some { id := "D", price := 500, title := "T" } else none)
        [] true
        (some { rifaId := "D", numeros := [7, 7], userId := "u", email := "e" })).intents.map
      IntentParams.amount) = [100000] ∧ (100000 : Int) ≠ 500 * 2 := by
  constructor
  · rfl
  · decide

/-- C10 (amended): duplicate numbers within a single request are neither
rejected nor deduplicated - when the store holds no conflicting ticket the
create-intent call succeeds and charges price x (full list length,
duplicates included) x 100, and on the succeeded event the batch insert
attempt carries one row per occurrence of each number. -/
theorem c10_duplicates (catalog : String → Option Rifa) (store store2 : List Ticket)
    (req : PaymentRequest) (rifa : Rifa) (endpointSecret : String) (body : Event)
    (mode : StoreMode) (emailOk : Bool) (numeros : List Int)
    (hcat : catalog req.rifaId = some rifa)
    (hfree : MainGo.validarNumeros store req.rifaId req.numeros = Except.ok ())
    (htype : body.type = "payment_intent.succeeded")
    (hdec : decodeNumeros (mapGet body.metadata "numeros") = some numeros) :
    (MainGo.CreatePaymentIntent catalog store true (some req)).status = 200
    ∧ ((MainGo.CreatePaymentIntent catalog store true (some req)).intents.map
        IntentParams.amount) = [rifa.price * (req.numeros.length : Int) * 100]
    ∧ (MainGo.HandleStripeWebhook endpointSecret mode store2 true body
        { secret := endpointSecret, signedBody := body } emailOk).attempts
      = [numeros.map (fun n =>
          { rifa_id := mapGet body.metadata "rifa_id",
            number := n,
            profile_id := mapGet body.metadata "user_id" })] := by
  refine ⟨?_, ?_, ?_⟩
  · simp [MainGo.CreatePaymentIntent, hcat, hfree]
  · simp [MainGo.CreatePaymentIntent, hcat, hfree]
  · simp only [MainGo.HandleStripeWebhook, constructEvent_valid, htype, hdec]
    simp [mkRows]
    split <;> rfl

/-- C10 witness: the duplicate law at price 500 with the list [7,7]. -/
theorem c10_duplicates_witness :
    (MainGo.CreatePaymentIntent
        (fun i => if i = "D2" then some { id := "D2", price := 500, title := "T" } else none)
        [] true
        (some { rifaId := "D2", numeros := [7, 7], userId := "u", email := "e" })).status = 200
    ∧ ((MainGo.CreatePaymentIntent
        (fun i => if i = "D2" then some { id := "D2", price := 500, title := "T" } else none)
        [] true
        (some { rifaId := "D2", numeros := [7, 7], userId := "u", email := "e" })).intents.map
      IntentParams.amount) = [(500 : Int) * (([7, 7] : List Int).length : Int) * 100]
    ∧ (MainGo.HandleStripeWebhook "whsec" .ok [] true
        { type := "payment_intent.succeeded",
          metadata := [("rifa_id", "D2"), ("rifa_title", "T"), ("user_id", "u"),
                       ("user_email", "e"), ("numeros", "[7,7]")] }
        { secret := "whsec",
          signedBody :=
            { type := "payment_intent.succeeded",
              metadata := [("rifa_id", "D2"), ("rifa_title", "T"), ("user_id", "u"),
                           ("user_email", "e"), ("numeros", "[7,7]")] } }
        true).attempts
      = [([7, 7] : List Int).map (fun n =>
          { rifa_id := mapGet [("rifa_id", "D2"), ("rifa_title", "T"), ("user_id", "u"),
              ("user_email", "e"), ("numeros", "[7,7]")] "rifa_id",
            number := n,
            profile_id := mapGet [("rifa_id", "D2"), ("rifa_title", "T"), ("user_id", "u"),
              ("user_email", "e"), ("numeros", "[7,7]")] "user_id" })] :=
  c10_duplicates
    (fun i => if i = "D2" then some { id := "D2", price := 500, title := "T" } else none)
    [] []
    { rifaId := "D2", numeros := [7, 7], userId := "u", email := "e" }
    { id := "D2", price := 500, title := "T" }
    "whsec"
    { type := "payment_intent.succeeded",
      metadata := [("rifa_id", "D2"), ("rifa_title", "T"), ("user_id", "u"),
                   ("user_email", "e"), ("numeros", "[7,7]")] }
    .ok true [7, 7] (by rfl) (by rfl) (by rfl) (by rfl)

end PaymentsRifas
